import Mathlib

/-!
Verification of the mcp-agent-ledger repository core: the filter normalizer
(src/index.ts), the in-memory mock provider, the relational ("puzzle")
provider and the stub ("manufact") provider (src/src/ledger).

Modelling conventions (shallow embedding):
* Calendar dates (the YYYY-MM-DD strings of the source) are modelled as UTC
  day indices of type Int; an ISO day string d maps to the millisecond
  instants dayStartMs d (d at 00:00:00.000Z) and dayEndMs d
  (d at 23:59:59.999Z), exactly as toStartOfDay / toEndOfDay compute
  new Date(d + "T00:00:00.000Z").getTime() and
  new Date(d + "T23:59:59.999Z").getTime().
* Timestamps (occurredAt) are epoch milliseconds of type Int. A
  TrackExpenseInput occurredAt is Option Int: none models a string on which
  Date.parse returns NaN.
* Monetary amounts are Int (the schema stores integer minor units and the
  tool input schema enforces an integer); Math.trunc on an integer-valued
  amount is the identity.
* LedgerError values are modelled by their code string only (the message
  text carries no specification content for the claims at hand).
* Thrown exceptions become Except results; the mutable module-level store
  of the mock provider becomes explicit state passing, and every operation
  returns its result together with the store it leaves behind.
-/

namespace AgentLedger

/-- One expense row of the mock provider (src/src/ledger/types.ts, Expense). -/
structure Expense where
  id : String
  agentId : String
  agentName : String
  category : String
  vendor : String
  description : String
  amountMinor : Int
  occurredAt : Int
deriving Repr, DecidableEq

/-- Canonical filter set produced by the normalizer (types.ts, LedgerFilters).
The two dates are UTC day indices. -/
structure LedgerFilters where
  agentId : Option String
  «from» : Int
  «to» : Int
  currency : String
deriving Repr, DecidableEq

/-- Raw filter input before normalization (types.ts, LedgerFiltersInput). -/
structure LedgerFiltersInput where
  agentId : Option String
  «from» : Option Int
  «to» : Option Int
  currency : Option String
deriving Repr, DecidableEq

structure ExpenseByAgent where
  agentId : String
  agentName : String
  totalExpenseMinor : Int
deriving Repr, DecidableEq

structure ExpenseByCategory where
  category : String
  totalExpenseMinor : Int
deriving Repr, DecidableEq

structure ExpensesSummary where
  totalExpenseMinor : Int
  expenseCount : Nat
  byAgent : List ExpenseByAgent
  byCategory : List ExpenseByCategory
deriving Repr, DecidableEq

structure GetExpensesResult where
  currency : String
  «from» : Int
  «to» : Int
  expenses : List Expense
  summary : ExpensesSummary
deriving Repr, DecidableEq

structure AgentBalance where
  agentId : String
  agentName : String
  startingMinor : Int
  spentMinor : Int
  remainingMinor : Int
deriving Repr, DecidableEq

structure BalanceTotals where
  startingMinor : Int
  spentMinor : Int
  remainingMinor : Int
deriving Repr, DecidableEq

structure GetBalanceResult where
  currency : String
  asOf : Int
  balances : List AgentBalance
  totals : BalanceTotals
deriving Repr, DecidableEq

structure TrackExpenseInput where
  agentId : String
  category : String
  vendor : String
  description : String
  amountMinor : Int
  currency : String
  occurredAt : Option Int
deriving Repr, DecidableEq

structure TrackExpenseResult where
  currency : String
  expense : Expense
deriving Repr, DecidableEq

/-- Millisecond instant of a UTC day at 00:00:00.000Z (toStartOfDay). -/
def dayStartMs (d : Int) : Int := d * 86400000

/-- Millisecond instant of a UTC day at 23:59:59.999Z (toEndOfDay). -/
def dayEndMs (d : Int) : Int := d * 86400000 + 86399999

/-- Stable descending insertion by an Int key. This models the behaviour of
JavaScript Array.prototype.sort (stable since ES2019) with a comparator
(a, b) -> key b - key a: the output is ordered by descending key and
equal-key elements keep their relative order. -/
def insertDescBy {α : Type} (key : α → Int) (x : α) : List α → List α
  | [] => [x]
  | y :: ys => if key y < key x then x :: y :: ys else y :: insertDescBy key x ys

/-- Stable sort by descending Int key (see insertDescBy). -/
def sortDescBy {α : Type} (key : α → Int) : List α → List α
  | [] => []
  | x :: xs => insertDescBy key x (sortDescBy key xs)

/-- Fold computing expenses.reduce((sum, item) => sum + item.amountMinor, 0). -/
def sumAmounts (l : List Expense) : Int :=
  l.foldl (fun sum item => sum + item.amountMinor) 0

/-! ## Mock provider (mock-provider.ts) -/

/-- The fixed mock agent roster AGENTS: (id, name) pairs. -/
def AGENTS : List (String × String) :=
  [("agent-atlas", "Atlas"), ("agent-beacon", "Beacon"), ("agent-cipher", "Cipher")]

/-- STARTING_BALANCE_BY_AGENT with the ?? 0 fallback applied at lookup. -/
def STARTING_BALANCE_BY_AGENT (id : String) : Int :=
  if id = "agent-atlas" then 250000
  else if id = "agent-beacon" then 180000
  else if id = "agent-cipher" then 220000
  else 0

/-- AGENT_BY_ID.get: lookup of an agent by id in the roster. -/
def findAgent (id : String) : Option (String × String) :=
  AGENTS.find? (fun a => a.1 == id)

/-- The mutable module-level mockExpenses array, as explicit state. -/
abbrev MockState := List Expense

/-- Date-window part of the getFilteredExpenses predicate:
itemTime >= fromTime and itemTime <= toTime. -/
def inWindow (f : LedgerFilters) (e : Expense) : Bool :=
  decide (dayStartMs f.«from» ≤ e.occurredAt) && decide (e.occurredAt ≤ dayEndMs f.«to»)

/-- Agent part of the predicate: !filters.agentId or item.agentId === filters.agentId. -/
def agentScope (f : LedgerFilters) (aid : String) : Bool :=
  match f.agentId with
  | none => true
  | some x => aid == x

/-- MockLedgerProvider.getFilteredExpenses: filter the store by the inclusive
UTC day window and the optional agentId equality. -/
def getFilteredExpenses (f : LedgerFilters) (st : MockState) : List Expense :=
  List.filter (fun item => inWindow f item && agentScope f item.agentId) st

/-- summarizeByAgent inner accumulation: the Map keyed by agentId, updating an
existing entry in place or appending a new one (JS Map preserves insertion
order). -/
def addByAgent : List ExpenseByAgent → Expense → List ExpenseByAgent
  | [], item => [⟨item.agentId, item.agentName, item.amountMinor⟩]
  | r :: rest, item =>
      if r.agentId = item.agentId then
        { r with totalExpenseMinor := r.totalExpenseMinor + item.amountMinor } :: rest
      else r :: addByAgent rest item

/-- summarizeByAgent: group by agentId, then sort descending by total. -/
def summarizeByAgent (expenses : List Expense) : List ExpenseByAgent :=
  sortDescBy (fun r => r.totalExpenseMinor) (expenses.foldl addByAgent [])

/-- summarizeByCategory inner accumulation, keyed by category. -/
def addByCategory : List ExpenseByCategory → Expense → List ExpenseByCategory
  | [], item => [⟨item.category, item.amountMinor⟩]
  | r :: rest, item =>
      if r.category = item.category then
        { r with totalExpenseMinor := r.totalExpenseMinor + item.amountMinor } :: rest
      else r :: addByCategory rest item

/-- summarizeByCategory: group by category, then sort descending by total. -/
def summarizeByCategory (expenses : List Expense) : List ExpenseByCategory :=
  sortDescBy (fun r => r.totalExpenseMinor) (expenses.foldl addByCategory [])

/-- Success value of MockLedgerProvider.getExpenses: filter, sort newest
first, and build the summary. -/
def mockExpensesResult (f : LedgerFilters) (st : MockState) : GetExpensesResult :=
  let expenses := sortDescBy (fun e => e.occurredAt) (getFilteredExpenses f st)
  { currency := f.currency
    «from» := f.«from»
    «to» := f.«to»
    expenses := expenses
    summary :=
      { totalExpenseMinor := sumAmounts expenses
        expenseCount := expenses.length
        byAgent := summarizeByAgent expenses
        byCategory := summarizeByCategory expenses } }

/-- MockLedgerProvider.getExpenses. The second component is the store left
behind: the method only reads (filter and sort both act on a fresh copy
produced by Array.prototype.filter). -/
def mockGetExpenses (f : LedgerFilters) (st : MockState) :
    Except String GetExpensesResult × MockState :=
  if f.currency ≠ "USD" then (Except.error "UNSUPPORTED_CURRENCY", st)
  else (Except.ok (mockExpensesResult f st), st)

/-- The spentByAgent record accumulation:
acc[item.agentId] = (acc[item.agentId] ?? 0) + item.amountMinor. A JS object
keeps the position of an existing key and appends a new key at the end. -/
def updateAssoc : List (String × Int) → String → Int → List (String × Int)
  | [], k, v => [(k, v)]
  | p :: rest, k, v =>
      if p.1 = k then (p.1, p.2 + v) :: rest else p :: updateAssoc rest k v

/-- filteredExpenses.reduce building the spentByAgent record. -/
def accumSpent (l : List Expense) : List (String × Int) :=
  l.foldl (fun acc item => updateAssoc acc item.agentId item.amountMinor) []

/-- Record lookup with the ?? 0 default: spentByAgent[id] ?? 0. -/
def lookupD (acc : List (String × Int)) (k : String) : Int :=
  match acc.find? (fun p => p.1 = k) with
  | some p => p.2
  | none => 0

/-- balances.reduce accumulating the three totals fields. -/
def addTotals (acc : BalanceTotals) (item : AgentBalance) : BalanceTotals :=
  { startingMinor := acc.startingMinor + item.startingMinor
    spentMinor := acc.spentMinor + item.spentMinor
    remainingMinor := acc.remainingMinor + item.remainingMinor }

/-- Success value of MockLedgerProvider.getBalance. The asOf wall-clock
timestamp new Date() is passed in as now. -/
def mockBalanceResult (now : Int) (f : LedgerFilters) (st : MockState) : GetBalanceResult :=
  let filteredExpenses := getFilteredExpenses f st
  let selectedAgents := AGENTS.filter (fun agent => agentScope f agent.1)
  let spentByAgent := accumSpent filteredExpenses
  let balances : List AgentBalance := selectedAgents.map (fun agent =>
    let startingMinor := STARTING_BALANCE_BY_AGENT agent.1
    let spentMinor := lookupD spentByAgent agent.1
    { agentId := agent.1
      agentName := agent.2
      startingMinor := startingMinor
      spentMinor := spentMinor
      remainingMinor := startingMinor - spentMinor })
  { currency := f.currency
    asOf := now
    balances := balances
    totals := balances.foldl addTotals ⟨0, 0, 0⟩ }

/-- MockLedgerProvider.getBalance, with the untouched store as second
component. -/
def mockGetBalance (now : Int) (f : LedgerFilters) (st : MockState) :
    Except String GetBalanceResult × MockState :=
  if f.currency ≠ "USD" then (Except.error "UNSUPPORTED_CURRENCY", st)
  else (Except.ok (mockBalanceResult now f st), st)

/-- The numeric suffix of an id matching the regex exp-(digits), anchored at
both ends; none when the regex does not match. -/
def expOrdinal (s : String) : Option Nat :=
  if s.startsWith "exp-" then
    let digits := (s.drop 4).toList
    if digits ≠ [] ∧ digits.all Char.isDigit then
      some (digits.foldl (fun n c => n * 10 + (c.toNat - 48)) 0)
    else none
  else none

/-- String(n).padStart(3, "0"). -/
def padStart3 (s : String) : String :=
  if s.length < 3 then String.mk (List.replicate (3 - s.length) '0') ++ s else s

/-- nextExpenseId: scan existing ids for the highest exp-(digits) ordinal,
increment, left-pad to three digits. -/
def nextExpenseId (st : MockState) : String :=
  let nextOrdinal :=
    (List.foldl (fun mx item =>
      match expOrdinal item.id with
      | none => mx
      | some n => max mx n) 0 st) + 1
  "exp-" ++ padStart3 (toString nextOrdinal)

/-- MockLedgerProvider.trackExpense: currency check, roster lookup, amount
check (Math.trunc is the identity on the integer amounts of the model),
occurredAt parse check, then append the new expense to the store. -/
def mockTrackExpense (input : TrackExpenseInput) (st : MockState) :
    Except String TrackExpenseResult × MockState :=
  if input.currency ≠ "USD" then (Except.error "UNSUPPORTED_CURRENCY", st)
  else
    match findAgent input.agentId with
    | none => (Except.error "INVALID_AGENT", st)
    | some agent =>
      if input.amountMinor ≤ 0 then (Except.error "INVALID_AMOUNT", st)
      else
        match input.occurredAt with
        | none => (Except.error "INVALID_DATE", st)
        | some occurredAtMs =>
          let expense : Expense :=
            { id := nextExpenseId st
              agentId := agent.1
              agentName := agent.2
              category := input.category
              vendor := input.vendor
              description := input.description
              amountMinor := input.amountMinor
              occurredAt := occurredAtMs }
          (Except.ok { currency := input.currency, expense := expense },
           st ++ [expense])

/-! ## Filter normalizer (src/index.ts) -/

def DEFAULT_CURRENCY : String := "USD"

def DEFAULT_WINDOW_DAYS : Int := 30

/-- input.agentId?.trim() || undefined: trim, empty resolves to absent. -/
def normAgentId (a : Option String) : Option String :=
  match a with
  | none => none
  | some s => if s.trim = "" then none else some s.trim

/-- input.currency?.trim().toUpperCase() || DEFAULT_CURRENCY. Lean
String.trim and String.toUpper stand in for the JavaScript methods (they
agree on the ASCII inputs of interest). -/
def normCurrency (c : Option String) : String :=
  match c with
  | none => DEFAULT_CURRENCY
  | some s => if s.trim.toUpper = "" then DEFAULT_CURRENCY else s.trim.toUpper

/-- resolveDateRange over UTC day indices: to defaults to today, from
defaults to to shifted by -(DEFAULT_WINDOW_DAYS - 1) days; parseUtcDay and
toDateString are mutually inverse on the day-index representation, and
shiftDays is day addition. -/
def resolveDateRange (fromInput toInput : Option Int) (today : Int) : Int × Int :=
  let toDate := match toInput with | some t => t | none => today
  let fromDate := match fromInput with
    | some f => f
    | none => toDate + (-(DEFAULT_WINDOW_DAYS - 1))
  (fromDate, toDate)

/-- normalizeFilters. Dates are modelled as UTC day indices and are
well-formed by construction, so the YYYY-MM-DD pattern guard of the source
(the INVALID_DATE branch) cannot fire in the model; the remaining logic is
resolution followed by the range check. -/
def normalizeFilters (input : LedgerFiltersInput) (today : Int) :
    Except String LedgerFilters :=
  let dateRange := resolveDateRange input.«from» input.«to» today
  if dateRange.2 < dateRange.1 then Except.error "INVALID_DATE_RANGE"
  else Except.ok
    { agentId := normAgentId input.agentId
      «from» := dateRange.1
      «to» := dateRange.2
      currency := normCurrency input.currency }

/-- safeNormalizeFilters: try the primary normalizer and on any failure fall
back to today for both bounds with best-effort currency and agentId. -/
def safeNormalizeFilters (input : LedgerFiltersInput) (today : Int) : LedgerFilters :=
  match normalizeFilters input today with
  | Except.ok f => f
  | Except.error _ =>
    { agentId := normAgentId input.agentId
      «from» := today
      «to» := today
      currency := normCurrency input.currency }

/-! ## Relational ("puzzle") provider (puzzle-provider.ts, db/schema.ts) -/

/-- A row of the agents table. -/
structure AgentRow where
  id : String
  name : String
  startingMinor : Int
  currency : String
deriving Repr, DecidableEq

/-- A row of the expenses table. The generated uuid is abstracted to a Nat. -/
structure ExpRow where
  id : Nat
  agentId : String
  category : String
  vendor : String
  description : String
  amountMinor : Int
  currency : String
  occurredAt : Int
deriving Repr, DecidableEq

/-- The relational database state: the two tables. -/
structure PuzzleDb where
  agents : List AgentRow
  expenses : List ExpRow
deriving Repr, DecidableEq

/-- The schema constraints of db/schema.ts that concern the claims: every
expense row has currency USD (expenses_currency_usd), a positive amount
(expenses_amount_minor_positive) and a valid agent reference (the foreign
key), and every agent row has currency USD and a non-negative starting
balance. -/
def PuzzleDbWF (db : PuzzleDb) : Prop :=
  (∀ e ∈ db.expenses, e.currency = "USD" ∧ 0 < e.amountMinor ∧
    db.agents.any (fun a => a.id == e.agentId) = true) ∧
  (∀ a ∈ db.agents, a.currency = "USD" ∧ 0 ≤ a.startingMinor)

instance (db : PuzzleDb) : Decidable (PuzzleDbWF db) := by
  unfold PuzzleDbWF; infer_instance

/-- The WHERE clause shared by the puzzle read queries: occurredAt between
the day bounds, currency equal to the filter currency, and the optional
agentId equality. -/
def puzzleMatches (f : LedgerFilters) (e : ExpRow) : Bool :=
  decide (dayStartMs f.«from» ≤ e.occurredAt) &&
  decide (e.occurredAt ≤ dayEndMs f.«to») &&
  (e.currency == f.currency) &&
  agentScope f e.agentId

/-- SQL coalesce(sum(amount_minor), 0) over a list of rows. -/
def sumExpRows (l : List ExpRow) : Int :=
  l.foldl (fun sum e => sum + e.amountMinor) 0

/-- Denotation of the grouped spent query plus the defaulted Map lookup
spentByAgent.get(id) ?? 0: the aggregate sum of matching rows of one agent
(an agent with no matching row is absent from the grouping and the lookup
defaults to 0, which equals the sum over the empty selection). -/
def puzzleSpent (f : LedgerFilters) (db : PuzzleDb) (aid : String) : Int :=
  sumExpRows (db.expenses.filter (fun e => puzzleMatches f e && e.agentId == aid))

/-- Success value of PuzzleLedgerProvider.getBalance. toInt is the identity
on the integer-valued columns of the model. -/
def puzzleBalanceResult (now : Int) (f : LedgerFilters) (db : PuzzleDb) : GetBalanceResult :=
  let selectedAgents : List AgentRow := match f.agentId with
    | some a => db.agents.filter (fun r => r.id == a)
    | none => db.agents
  let balances : List AgentBalance := selectedAgents.map (fun agent =>
    let startingMinor := agent.startingMinor
    let spentMinor := puzzleSpent f db agent.id
    { agentId := agent.id
      agentName := agent.name
      startingMinor := startingMinor
      spentMinor := spentMinor
      remainingMinor := startingMinor - spentMinor })
  { currency := f.currency
    asOf := now
    balances := balances
    totals := balances.foldl addTotals ⟨0, 0, 0⟩ }

/-- PuzzleLedgerProvider.getBalance (reads leave the database unchanged, so
no state is threaded). -/
def puzzleGetBalance (now : Int) (f : LedgerFilters) (db : PuzzleDb) :
    Except String GetBalanceResult :=
  if f.currency ≠ "USD" then Except.error "UNSUPPORTED_CURRENCY"
  else Except.ok (puzzleBalanceResult now f db)

/-- The expense list query of PuzzleLedgerProvider.getExpenses: matching
rows inner-joined with agents for the display name (a row whose agent is
missing is dropped by the join), ordered by descending occurredAt. -/
def puzzleExpenseRows (f : LedgerFilters) (db : PuzzleDb) : List Expense :=
  let joined := (db.expenses.filter (puzzleMatches f)).filterMap (fun e =>
    (db.agents.find? (fun a => a.id == e.agentId)).map (fun a =>
      ({ id := toString e.id
         agentId := e.agentId
         agentName := a.name
         category := e.category
         vendor := e.vendor
         description := e.description
         amountMinor := e.amountMinor
         occurredAt := e.occurredAt } : Expense)))
  sortDescBy (fun e => e.occurredAt) joined

/-- The grouped by-agent query of getExpenses (join for the name, group by
agent, sum, then sort descending by total). -/
def puzzleByAgent (f : LedgerFilters) (db : PuzzleDb) : List ExpenseByAgent :=
  summarizeByAgent (puzzleExpenseRows f db)

/-- The grouped by-category query of getExpenses. -/
def puzzleByCategory (f : LedgerFilters) (db : PuzzleDb) : List ExpenseByCategory :=
  sortDescBy (fun r => r.totalExpenseMinor)
    ((db.expenses.filter (puzzleMatches f)).foldl
      (fun acc e => addByCategory acc
        { id := toString e.id, agentId := e.agentId, agentName := "",
          category := e.category, vendor := e.vendor,
          description := e.description, amountMinor := e.amountMinor,
          occurredAt := e.occurredAt }) [])

/-- Success value of PuzzleLedgerProvider.getExpenses. The totals row comes
from the un-joined aggregate query over the same WHERE clause. -/
def puzzleExpensesResult (f : LedgerFilters) (db : PuzzleDb) : GetExpensesResult :=
  let matched := db.expenses.filter (puzzleMatches f)
  { currency := f.currency
    «from» := f.«from»
    «to» := f.«to»
    expenses := puzzleExpenseRows f db
    summary :=
      { totalExpenseMinor := sumExpRows matched
        expenseCount := matched.length
        byAgent := puzzleByAgent f db
        byCategory := puzzleByCategory f db } }

/-- PuzzleLedgerProvider.getExpenses. -/
def puzzleGetExpenses (f : LedgerFilters) (db : PuzzleDb) :
    Except String GetExpensesResult :=
  if f.currency ≠ "USD" then Except.error "UNSUPPORTED_CURRENCY"
  else Except.ok (puzzleExpensesResult f db)

/-- PuzzleLedgerProvider.trackExpense: currency assertion, occurredAt parse
check, agent upsert with on-conflict-do-nothing, agent re-read, then the
expense insert. The insert enforces the schema check constraints; in this
path currency is already USD and the agent exists, so only the amount
positivity constraint can fail, and a database constraint violation is not
a LedgerError, so toPuzzleDatabaseError wraps it as PROVIDER_UNAVAILABLE.
The second component is the database left behind (there is no surrounding
transaction: the agent upsert persists even when the expense insert fails).
-/
def puzzleTrackExpense (input : TrackExpenseInput) (db : PuzzleDb) :
    Except String TrackExpenseResult × PuzzleDb :=
  if input.currency ≠ "USD" then (Except.error "UNSUPPORTED_CURRENCY", db)
  else
    match input.occurredAt with
    | none => (Except.error "INVALID_DATE", db)
    | some occurredAtMs =>
      let db1 :=
        if db.agents.any (fun a => a.id == input.agentId) then db
        else { db with agents := db.agents ++
          [{ id := input.agentId, name := input.agentId,
             startingMinor := 0, currency := "USD" }] }
      match db1.agents.find? (fun a => a.id == input.agentId) with
      | none => (Except.error "PROVIDER_UNAVAILABLE", db1)
      | some agent =>
        if input.amountMinor ≤ 0 then (Except.error "PROVIDER_UNAVAILABLE", db1)
        else
          let row : ExpRow :=
            { id := db1.expenses.length
              agentId := input.agentId
              category := input.category
              vendor := input.vendor
              description := input.description
              amountMinor := input.amountMinor
              currency := input.currency
              occurredAt := occurredAtMs }
          (Except.ok
            { currency := input.currency
              expense :=
                { id := toString row.id
                  agentId := row.agentId
                  agentName := agent.name
                  category := row.category
                  vendor := row.vendor
                  description := row.description
                  amountMinor := row.amountMinor
                  occurredAt := row.occurredAt } },
           { db1 with expenses := db1.expenses ++ [row] })

/-! ## Stub ("manufact") provider (manufact-provider.ts) -/

/-- ManufactLedgerProvider.getExpenses: ensureManufactConfigured then an
unconditional NOT_IMPLEMENTED failure; the filters are ignored. The
configured flag models the presence of MANUFACT_API_KEY and
MANUFACT_BASE_URL. -/
def manufactGetExpenses (configured : Bool) (_f : LedgerFilters) :
    Except String GetExpensesResult :=
  if ¬ configured then Except.error "PROVIDER_NOT_CONFIGURED"
  else Except.error "NOT_IMPLEMENTED"

/-- ManufactLedgerProvider.getBalance, same shape as getExpenses. -/
def manufactGetBalance (configured : Bool) (_f : LedgerFilters) :
    Except String GetBalanceResult :=
  if ¬ configured then Except.error "PROVIDER_NOT_CONFIGURED"
  else Except.error "NOT_IMPLEMENTED"

/-! ## Integer coercion toInt (puzzle-provider.ts) -/

/-- A JavaScript number: a finite value (modelled as a rational) or one of
the non-finite values NaN, Infinity, -Infinity. -/
inductive JsNum where
  | finite (q : ℚ)
  | nan
  | posInf
  | negInf
deriving Repr, DecidableEq

/-- Math.trunc on a finite value: round toward zero. -/
def jsTruncQ (q : ℚ) : Int := if 0 ≤ q then ⌊q⌋ else ⌈q⌉

/-- Math.trunc on a JavaScript number: NaN and the infinities pass through
unchanged. -/
def mathTrunc : JsNum → JsNum
  | JsNum.finite q => JsNum.finite (jsTruncQ q)
  | JsNum.nan => JsNum.nan
  | JsNum.posInf => JsNum.posInf
  | JsNum.negInf => JsNum.negInf

/-- The number | string | null | undefined argument type of toInt. -/
inductive JsValue where
  | num (n : JsNum)
  | str (s : String)
  | nullV
  | undef
deriving Repr, DecidableEq

/-- The longest leading digit run of a character list, as a number; none
when there is no leading digit. -/
def leadingDigits (cs : List Char) : Option Nat :=
  let digits := cs.takeWhile Char.isDigit
  if digits = [] then none
  else some (digits.foldl (fun n c => n * 10 + (c.toNat - 48)) 0)

/-- Number.parseInt(s, 10): skip leading whitespace, allow one sign, read
the longest digit prefix; NaN (none) when no digit follows. -/
def parseIntJs (s : String) : Option Int :=
  let cs := s.toList.dropWhile (fun c => c = ' ' ∨ c = '\t' ∨ c = '\n' ∨ c = '\r')
  match cs with
  | '-' :: rest => (leadingDigits rest).map (fun n => -(n : Int))
  | '+' :: rest => (leadingDigits rest).map (fun n => (n : Int))
  | rest => (leadingDigits rest).map (fun n => (n : Int))

/-- toInt: numbers go through Math.trunc, strings through parseInt with NaN
mapped to 0, null and undefined map to 0. The result is a JsNum because
Math.trunc propagates NaN and the infinities. -/
def toInt : JsValue → JsNum
  | JsValue.num n => mathTrunc n
  | JsValue.str s =>
      match parseIntJs s with
      | some parsed => JsNum.finite (parsed : ℚ)
      | none => JsNum.finite 0
  | JsValue.nullV => JsNum.finite 0
  | JsValue.undef => JsNum.finite 0

/-! ## Helper lemmas -/

theorem foldl_add_eq {α : Type} (g : α → Int) (l : List α) (a : Int) :
    l.foldl (fun s x => s + g x) a = a + (l.map g).sum := by
  induction l generalizing a with
  | nil => simp
  | cons x l ih =>
    rw [List.foldl_cons, ih (a + g x), List.map_cons, List.sum_cons]
    ring

theorem sumAmounts_eq (l : List Expense) :
    sumAmounts l = (l.map (fun e => e.amountMinor)).sum := by
  simpa using foldl_add_eq (fun e : Expense => e.amountMinor) l 0

theorem sumExpRows_eq (l : List ExpRow) :
    sumExpRows l = (l.map (fun e => e.amountMinor)).sum := by
  simpa using foldl_add_eq (fun e : ExpRow => e.amountMinor) l 0

theorem insertDescBy_perm {α : Type} (key : α → Int) (x : α) (l : List α) :
    (insertDescBy key x l).Perm (x :: l) := by
  induction l with
  | nil => simp [insertDescBy]
  | cons y ys ih =>
    by_cases h : key y < key x
    · simp [insertDescBy, h]
    · rw [insertDescBy, if_neg h]
      exact (ih.cons y).trans (List.Perm.swap x y ys)

theorem sortDescBy_perm {α : Type} (key : α → Int) (l : List α) :
    (sortDescBy key l).Perm l := by
  induction l with
  | nil => simp [sortDescBy]
  | cons x xs ih => exact (insertDescBy_perm key x _).trans (ih.cons x)

theorem insertDescBy_pairwise {α : Type} (key : α → Int) (x : α) (l : List α)
    (h : l.Pairwise (fun a b => key b ≤ key a)) :
    (insertDescBy key x l).Pairwise (fun a b => key b ≤ key a) := by
  induction l with
  | nil => simp [insertDescBy]
  | cons y ys ih =>
    rcases List.pairwise_cons.mp h with ⟨hy, hys⟩
    by_cases hlt : key y < key x
    · rw [insertDescBy, if_pos hlt]
      refine List.pairwise_cons.mpr ⟨?_, h⟩
      intro z hz
      rcases List.mem_cons.mp hz with rfl | hz'
      · exact le_of_lt hlt
      · exact le_trans (hy z hz') (le_of_lt hlt)
    · rw [insertDescBy, if_neg hlt]
      refine List.pairwise_cons.mpr ⟨?_, ih hys⟩
      intro z hz
      rcases List.mem_cons.mp ((insertDescBy_perm key x ys).mem_iff.mp hz) with rfl | hz'
      · exact not_lt.mp hlt
      · exact hy z hz'

theorem sortDescBy_pairwise {α : Type} (key : α → Int) (l : List α) :
    (sortDescBy key l).Pairwise (fun a b => key b ≤ key a) := by
  induction l with
  | nil => simp [sortDescBy]
  | cons x xs ih => exact insertDescBy_pairwise key x _ ih

theorem lookupD_update (acc : List (String × Int)) (k' : String) (v : Int) (k : String) :
    lookupD (updateAssoc acc k' v) k = lookupD acc k + (if k = k' then v else 0) := by
  induction acc with
  | nil =>
    by_cases h : k = k'
    · simp [updateAssoc, lookupD, List.find?, h]
    · simp [updateAssoc, lookupD, List.find?, h, Ne.symm h]
  | cons p rest ih =>
    by_cases hp : p.1 = k'
    · rw [updateAssoc, if_pos hp]
      by_cases hk : p.1 = k
      · have hkk' : k = k' := by rw [← hk, hp]
        simp [lookupD, List.find?, hk, hkk']
      · have hkk' : ¬ k = k' := fun hE => hk (by rw [hp, hE])
        simp [lookupD, List.find?, hk, hkk']
    · rw [updateAssoc, if_neg hp]
      by_cases hk : p.1 = k
      · have hkk' : ¬ k = k' := fun hE => hp (by rw [hk, hE])
        simp [lookupD, List.find?, hk, hkk']
      · simpa [lookupD, List.find?, hk] using ih

theorem lookupD_accumSpent_aux (k : String) (l : List Expense) (acc : List (String × Int)) :
    lookupD (l.foldl (fun a item => updateAssoc a item.agentId item.amountMinor) acc) k
      = lookupD acc k + ((l.filter (fun e => e.agentId == k)).map
          (fun e => e.amountMinor)).sum := by
  induction l generalizing acc with
  | nil => simp
  | cons e l ih =>
    rw [List.foldl_cons, ih, lookupD_update]
    by_cases h : e.agentId = k
    · rw [List.filter_cons_of_pos (by simp [h]), List.map_cons, List.sum_cons]
      simp only [h.symm, eq_self_iff_true, if_true]
      ring
    · rw [List.filter_cons_of_neg (by simp [h])]
      have : ¬ k = e.agentId := fun hE => h hE.symm
      simp only [if_neg this]
      ring

theorem lookupD_accumSpent (l : List Expense) (k : String) :
    lookupD (accumSpent l) k
      = ((l.filter (fun e => e.agentId == k)).map (fun e => e.amountMinor)).sum := by
  simpa [accumSpent, lookupD] using lookupD_accumSpent_aux k l []

theorem foldl_addTotals (l : List AgentBalance) (acc : BalanceTotals) :
    l.foldl addTotals acc =
      ⟨acc.startingMinor + (l.map (fun b => b.startingMinor)).sum,
       acc.spentMinor + (l.map (fun b => b.spentMinor)).sum,
       acc.remainingMinor + (l.map (fun b => b.remainingMinor)).sum⟩ := by
  induction l generalizing acc with
  | nil => simp
  | cons b l ih =>
    rw [List.foldl_cons, ih]
    simp only [addTotals, List.map_cons, List.sum_cons, BalanceTotals.mk.injEq]
    refine ⟨by ring, by ring, by ring⟩

theorem filter_spent_eq (f : LedgerFilters) (st : List Expense) (aid : String)
    (hsel : agentScope f aid = true) :
    (st.filter (fun e => inWindow f e && agentScope f e.agentId)).filter
        (fun e => e.agentId == aid)
      = st.filter (fun e => inWindow f e && (e.agentId == aid)) := by
  rw [List.filter_filter]
  refine List.filter_congr ?_
  intro e _
  by_cases hx : e.agentId = aid
  · simp [hx, hsel]
  · have hbeq : (e.agentId == aid) = false := by simp [hx]
    simp [hbeq]

theorem filter_puzzle_spent_eq (f : LedgerFilters) (db : PuzzleDb) (aid : String)
    (hsel : agentScope f aid = true) (hc : f.currency = "USD")
    (hcur : ∀ e ∈ db.expenses, e.currency = "USD") :
    db.expenses.filter (fun e => puzzleMatches f e && (e.agentId == aid))
      = db.expenses.filter (fun e =>
          decide (dayStartMs f.«from» ≤ e.occurredAt) &&
          decide (e.occurredAt ≤ dayEndMs f.«to») && (e.agentId == aid)) := by
  refine List.filter_congr ?_
  intro e he
  by_cases hx : e.agentId = aid
  · simp [puzzleMatches, hx, hsel, hcur e he, hc]
  · have hbeq : (e.agentId == aid) = false := by simp [hx]
    simp [puzzleMatches, hbeq]

theorem sum_remaining_sub (l : List AgentBalance)
    (h : ∀ b ∈ l, b.remainingMinor = b.startingMinor - b.spentMinor) :
    (l.map (fun b => b.remainingMinor)).sum
      = (l.map (fun b => b.startingMinor)).sum - (l.map (fun b => b.spentMinor)).sum := by
  induction l with
  | nil => simp
  | cons b l ih =>
    simp only [List.map_cons, List.sum_cons]
    rw [h b (List.mem_cons_self b l), ih (fun x hx => h x (List.mem_cons_of_mem b hx))]
    ring

/-- The balance consistency property of a GetBalanceResult: every balance
row satisfies remaining = starting - spent with spent given by spentOf, and
the totals row is the field-wise sum of the balances, hence also satisfies
remaining = starting - spent. -/
def BalanceResultOK (spentOf : String → Int) (res : GetBalanceResult) : Prop :=
  (∀ b ∈ res.balances,
      b.remainingMinor = b.startingMinor - b.spentMinor ∧
      b.spentMinor = spentOf b.agentId) ∧
  res.totals.startingMinor = (res.balances.map (fun b => b.startingMinor)).sum ∧
  res.totals.spentMinor = (res.balances.map (fun b => b.spentMinor)).sum ∧
  res.totals.remainingMinor = (res.balances.map (fun b => b.remainingMinor)).sum ∧
  res.totals.remainingMinor = res.totals.startingMinor - res.totals.spentMinor

theorem balanceResultOK_intro (res : GetBalanceResult) (spentOf : String → Int)
    (hb : ∀ b ∈ res.balances,
      b.remainingMinor = b.startingMinor - b.spentMinor ∧
      b.spentMinor = spentOf b.agentId)
    (ht : res.totals = res.balances.foldl addTotals ⟨0, 0, 0⟩) :
    BalanceResultOK spentOf res := by
  have htot := foldl_addTotals res.balances ⟨0, 0, 0⟩
  rw [htot] at ht
  refine ⟨hb, ?_, ?_, ?_, ?_⟩
  · rw [ht]; simp
  · rw [ht]; simp
  · rw [ht]; simp
  · rw [ht]
    simp only [zero_add]
    exact sum_remaining_sub res.balances (fun b hbm => (hb b hbm).1)

/-! ## Concrete fixtures for witnesses -/

/-- Epoch milliseconds of day d at h hours m minutes UTC. -/
def msAt (d h m : Int) : Int := d * 86400000 + (h * 60 + m) * 60000

/-- SEED_MOCK_EXPENSES; occurredAt values are the epoch milliseconds of the
ISO timestamps of the source (day indices relative to 1970-01-01: 2026-01-26
is day 20479). -/
def SEED_MOCK_EXPENSES : List Expense :=
  [ { id := "exp-001", agentId := "agent-atlas", agentName := "Atlas",
      category := "software", vendor := "OpenAI",
      description := "Model usage credits", amountMinor := 18400,
      occurredAt := msAt 20504 16 12 },
    { id := "exp-002", agentId := "agent-beacon", agentName := "Beacon",
      category := "infrastructure", vendor := "AWS",
      description := "Compute instances", amountMinor := 29900,
      occurredAt := msAt 20502 9 5 },
    { id := "exp-003", agentId := "agent-cipher", agentName := "Cipher",
      category := "travel", vendor := "Delta",
      description := "Hackathon travel", amountMinor := 44500,
      occurredAt := msAt 20499 11 42 },
    { id := "exp-004", agentId := "agent-atlas", agentName := "Atlas",
      category := "operations", vendor := "Notion",
      description := "Workspace subscription", amountMinor := 5000,
      occurredAt := msAt 20496 10 17 },
    { id := "exp-005", agentId := "agent-cipher", agentName := "Cipher",
      category := "software", vendor := "Linear",
      description := "Issue tracking seats", amountMinor := 6800,
      occurredAt := msAt 20495 13 20 },
    { id := "exp-006", agentId := "agent-beacon", agentName := "Beacon",
      category := "operations", vendor := "Slack",
      description := "Comms plan", amountMinor := 3100,
      occurredAt := msAt 20492 18 30 },
    { id := "exp-007", agentId := "agent-atlas", agentName := "Atlas",
      category := "travel", vendor := "Marriott",
      description := "Project kickoff lodging", amountMinor := 21300,
      occurredAt := msAt 20489 21 0 },
    { id := "exp-008", agentId := "agent-beacon", agentName := "Beacon",
      category := "infrastructure", vendor := "Cloudflare",
      description := "Edge traffic", amountMinor := 8400,
      occurredAt := msAt 20487 7 44 },
    { id := "exp-009", agentId := "agent-cipher", agentName := "Cipher",
      category := "operations", vendor := "Figma",
      description := "Design seat", amountMinor := 4500,
      occurredAt := msAt 20483 10 58 },
    { id := "exp-010", agentId := "agent-atlas", agentName := "Atlas",
      category := "software", vendor := "GitHub",
      description := "Enterprise add-ons", amountMinor := 7200,
      occurredAt := msAt 20479 15 25 } ]

/-- A canonical USD filter set covering the seed window (2026-01-01 to
2026-05-27 in day indices). -/
def sampleFilters : LedgerFilters :=
  { agentId := none, «from» := 20454, «to» := 20600, currency := "USD" }

/-- A relational database state holding the three migrated agents and one
expense row, satisfying the schema constraints. -/
def sampleDb : PuzzleDb :=
  { agents :=
      [ { id := "agent-atlas", name := "Atlas", startingMinor := 250000, currency := "USD" },
        { id := "agent-beacon", name := "Beacon", startingMinor := 180000, currency := "USD" },
        { id := "agent-cipher", name := "Cipher", startingMinor := 220000, currency := "USD" } ],
    expenses :=
      [ { id := 0, agentId := "agent-atlas", category := "software",
          vendor := "OpenAI", description := "Model usage credits",
          amountMinor := 18400, currency := "USD",
          occurredAt := msAt 20504 16 12 } ] }

/-- A filter input whose resolved range is reversed (from day 5 to day 3). -/
def badRangeInput : LedgerFiltersInput :=
  { agentId := none, «from» := some 5, «to» := some 3, currency := none }

/-- An EUR filter set. -/
def eurFilters : LedgerFilters :=
  { agentId := none, «from» := 0, «to» := 0, currency := "EUR" }

/-- A track-expense input carrying EUR currency. -/
def eurTrackInput : TrackExpenseInput :=
  { agentId := "agent-atlas", category := "software", vendor := "OpenAI",
    description := "credits", amountMinor := 100, currency := "EUR",
    occurredAt := some 0 }

/-- A track-expense input with a negative amount and otherwise valid
fields. -/
def negAmountInput : TrackExpenseInput :=
  { agentId := "agent-atlas", category := "software", vendor := "OpenAI",
    description := "credits", amountMinor := -5, currency := "USD",
    occurredAt := some 0 }

/-- A valid track-expense input for the mock provider. -/
def okTrackInput : TrackExpenseInput :=
  { agentId := "agent-atlas", category := "software", vendor := "OpenAI",
    description := "Batch inference run", amountMinor := 5, currency := "USD",
    occurredAt := some 0 }

/-- The expense produced by tracking okTrackInput on the empty store. -/
def trackedExpense : Expense :=
  { id := "exp-001", agentId := "agent-atlas", agentName := "Atlas",
    category := "software", vendor := "OpenAI",
    description := "Batch inference run", amountMinor := 5, occurredAt := 0 }

/-! ## Claim theorems -/

/-- C1: for every USD filter set, the mock and the relational getBalance
both succeed; every returned balance row satisfies
remainingMinor = startingMinor - spentMinor, where spentMinor is the
integer sum of amountMinor over that agents expenses inside the inclusive
date window; and the totals row is the field-wise sum of the returned
balances, so totals.remainingMinor = totals.startingMinor -
totals.spentMinor. The relational side assumes the database schema
constraints (PuzzleDbWF). -/
theorem getBalance_consistency (now : Int) (f : LedgerFilters) (st : MockState)
    (db : PuzzleDb) (hc : f.currency = "USD") (hwf : PuzzleDbWF db) :
    (mockGetBalance now f st).1 = Except.ok (mockBalanceResult now f st) ∧
    BalanceResultOK
      (fun aid => sumAmounts (st.filter (fun e => inWindow f e && (e.agentId == aid))))
      (mockBalanceResult now f st) ∧
    puzzleGetBalance now f db = Except.ok (puzzleBalanceResult now f db) ∧
    BalanceResultOK
      (fun aid => sumExpRows (db.expenses.filter (fun e =>
        decide (dayStartMs f.«from» ≤ e.occurredAt) &&
        decide (e.occurredAt ≤ dayEndMs f.«to») && (e.agentId == aid))))
      (puzzleBalanceResult now f db) := by
  refine ⟨?_, ?_, ?_, ?_⟩
  · simp [mockGetBalance, hc]
  · refine balanceResultOK_intro _ _ ?_ rfl
    intro b hb
    simp only [mockBalanceResult] at hb
    rcases List.mem_map.mp hb with ⟨agent, hag, rfl⟩
    have hsel : agentScope f agent.1 = true := (List.mem_filter.mp hag).2
    refine ⟨rfl, ?_⟩
    show lookupD (accumSpent (getFilteredExpenses f st)) agent.1 = _
    rw [lookupD_accumSpent, sumAmounts_eq, getFilteredExpenses,
      filter_spent_eq f st agent.1 hsel]
  · simp [puzzleGetBalance, hc]
  · refine balanceResultOK_intro _ _ ?_ rfl
    intro b hb
    simp only [puzzleBalanceResult] at hb
    rcases List.mem_map.mp hb with ⟨agent, hag, rfl⟩
    have hsel : agentScope f agent.id = true := by
      rcases hA : f.agentId with _ | x
      · simp [agentScope, hA]
      · simp only [hA] at hag
        have hx := (List.mem_filter.mp hag).2
        simp only [agentScope, hA]
        exact hx
    refine ⟨rfl, ?_⟩
    show puzzleSpent f db agent.id = _
    rw [puzzleSpent, filter_puzzle_spent_eq f db agent.id hsel hc
      (fun e he => (hwf.1 e he).1)]

/-- C1 witness: the consistency property instantiated on the seed store and
the sample database. -/
theorem getBalance_consistency_witness :
    (mockGetBalance 0 sampleFilters SEED_MOCK_EXPENSES).1
      = Except.ok (mockBalanceResult 0 sampleFilters SEED_MOCK_EXPENSES) ∧
    BalanceResultOK
      (fun aid => sumAmounts (SEED_MOCK_EXPENSES.filter
        (fun e => inWindow sampleFilters e && (e.agentId == aid))))
      (mockBalanceResult 0 sampleFilters SEED_MOCK_EXPENSES) ∧
    puzzleGetBalance 0 sampleFilters sampleDb
      = Except.ok (puzzleBalanceResult 0 sampleFilters sampleDb) ∧
    BalanceResultOK
      (fun aid => sumExpRows (sampleDb.expenses.filter (fun e =>
        decide (dayStartMs sampleFilters.«from» ≤ e.occurredAt) &&
        decide (e.occurredAt ≤ dayEndMs sampleFilters.«to») && (e.agentId == aid))))
      (puzzleBalanceResult 0 sampleFilters sampleDb) :=
  getBalance_consistency 0 sampleFilters SEED_MOCK_EXPENSES sampleDb rfl (by decide)

/-- C2: for every USD filter set, the summary of the mock listExpenses
reports totalExpenseMinor equal to the integer sum of amountMinor over the
returned expenses array and expenseCount equal to its length. -/
theorem mock_expenses_summary (f : LedgerFilters) (st : MockState)
    (hc : f.currency = "USD") :
    (mockGetExpenses f st).1 = Except.ok (mockExpensesResult f st) ∧
    (mockExpensesResult f st).summary.totalExpenseMinor
      = ((mockExpensesResult f st).expenses.map (fun e => e.amountMinor)).sum ∧
    (mockExpensesResult f st).summary.expenseCount
      = (mockExpensesResult f st).expenses.length := by
  refine ⟨by simp [mockGetExpenses, hc], ?_, rfl⟩
  show sumAmounts _ = _
  rw [sumAmounts_eq]
  rfl

/-- C2 witness: the summary consistency on the seed store. -/
theorem mock_expenses_summary_witness :
    (mockGetExpenses sampleFilters SEED_MOCK_EXPENSES).1
      = Except.ok (mockExpensesResult sampleFilters SEED_MOCK_EXPENSES) ∧
    (mockExpensesResult sampleFilters SEED_MOCK_EXPENSES).summary.totalExpenseMinor
      = ((mockExpensesResult sampleFilters SEED_MOCK_EXPENSES).expenses.map
          (fun e => e.amountMinor)).sum ∧
    (mockExpensesResult sampleFilters SEED_MOCK_EXPENSES).summary.expenseCount
      = (mockExpensesResult sampleFilters SEED_MOCK_EXPENSES).expenses.length :=
  mock_expenses_summary sampleFilters SEED_MOCK_EXPENSES rfl

/-- C3: for every filter set with from less than or equal to to and USD
currency, the mock listExpenses returns exactly the stored expenses whose
occurredAt lies inside the inclusive window from 00:00:00.000Z of the from
day to 23:59:59.999Z of the to day and whose agent matches the optional
agentId filter, sorted descending by occurredAt (newest first). -/
theorem mock_expenses_window_sorted (f : LedgerFilters) (st : MockState)
    (_hft : f.«from» ≤ f.«to») (hc : f.currency = "USD") :
    (mockGetExpenses f st).1 = Except.ok (mockExpensesResult f st) ∧
    (mockExpensesResult f st).expenses.Perm
      (st.filter (fun e => inWindow f e && agentScope f e.agentId)) ∧
    (∀ e : Expense, e ∈ (mockExpensesResult f st).expenses ↔
      (e ∈ st ∧ dayStartMs f.«from» ≤ e.occurredAt ∧
       e.occurredAt ≤ dayEndMs f.«to» ∧ agentScope f e.agentId = true)) ∧
    (mockExpensesResult f st).expenses.Pairwise
      (fun a b => b.occurredAt ≤ a.occurredAt) := by
  have hperm := sortDescBy_perm (fun e : Expense => e.occurredAt)
    (getFilteredExpenses f st)
  refine ⟨by simp [mockGetExpenses, hc], hperm, ?_, ?_⟩
  · intro e
    rw [show (mockExpensesResult f st).expenses
        = sortDescBy (fun e => e.occurredAt) (getFilteredExpenses f st) from rfl]
    rw [hperm.mem_iff, getFilteredExpenses, List.mem_filter]
    simp [inWindow, and_assoc]
  · exact sortDescBy_pairwise (fun e : Expense => e.occurredAt) _

/-- C3 witness: the window and sortedness property on the seed store, with
the membership characterization instantiated at the first seed expense. -/
theorem mock_expenses_window_sorted_witness :
    (mockGetExpenses sampleFilters SEED_MOCK_EXPENSES).1
      = Except.ok (mockExpensesResult sampleFilters SEED_MOCK_EXPENSES) ∧
    (mockExpensesResult sampleFilters SEED_MOCK_EXPENSES).expenses.Perm
      (SEED_MOCK_EXPENSES.filter
        (fun e => inWindow sampleFilters e && agentScope sampleFilters e.agentId)) ∧
    (mockExpensesResult sampleFilters SEED_MOCK_EXPENSES).expenses.Pairwise
      (fun a b => b.occurredAt ≤ a.occurredAt) := by
  have h := mock_expenses_window_sorted sampleFilters SEED_MOCK_EXPENSES
    (by decide) rfl
  exact ⟨h.1, h.2.1, h.2.2.2⟩

/-- C4: when both dates are absent the resolved window is the 30 UTC
calendar days ending today (to = today, from = today - 29); when only to is
given, from = to - 29. -/
theorem resolveDateRange_defaults (today t : Int) :
    resolveDateRange none none today = (today - 29, today) ∧
    resolveDateRange none (some t) today = (t - 29, t) := by
  constructor
  · simp only [resolveDateRange, DEFAULT_WINDOW_DAYS, Prod.mk.injEq]
    exact ⟨by ring, trivial⟩
  · simp only [resolveDateRange, DEFAULT_WINDOW_DAYS, Prod.mk.injEq]
    exact ⟨by ring, trivial⟩

/-- C7: whenever the resolved from date lies chronologically after the
resolved to date, normalizeFilters fails with INVALID_DATE_RANGE. -/
theorem normalizeFilters_invalid_range (input : LedgerFiltersInput) (today : Int)
    (h : (resolveDateRange input.«from» input.«to» today).2
         < (resolveDateRange input.«from» input.«to» today).1) :
    normalizeFilters input today = Except.error "INVALID_DATE_RANGE" := by
  simp [normalizeFilters, h]

/-- C7 witness: the reversed range input from day 5 to day 3 fails. -/
theorem normalizeFilters_invalid_range_witness :
    normalizeFilters badRangeInput 0 = Except.error "INVALID_DATE_RANGE" :=
  normalizeFilters_invalid_range badRangeInput 0 (by decide)

/-- C9: the safe normalizer is total by construction, and on every input
rejected by the primary normalizer it returns today for both bounds, the
trimmed upper-cased currency with USD as the default for an empty or absent
value, and the trimmed agentId with the empty string resolving to absent. -/
theorem safeNormalizeFilters_fallback (input : LedgerFiltersInput) (today : Int)
    (e : String) (h : normalizeFilters input today = Except.error e) :
    safeNormalizeFilters input today =
      { agentId := normAgentId input.agentId, «from» := today, «to» := today,
        currency := normCurrency input.currency } ∧
    (input.currency = none → (safeNormalizeFilters input today).currency = "USD") ∧
    (∀ s, input.currency = some s → s.trim.toUpper = "" →
      (safeNormalizeFilters input today).currency = "USD") ∧
    (∀ s, input.currency = some s → s.trim.toUpper ≠ "" →
      (safeNormalizeFilters input today).currency = s.trim.toUpper) ∧
    (input.agentId = none → (safeNormalizeFilters input today).agentId = none) ∧
    (∀ s, input.agentId = some s → s.trim = "" →
      (safeNormalizeFilters input today).agentId = none) ∧
    (∀ s, input.agentId = some s → s.trim ≠ "" →
      (safeNormalizeFilters input today).agentId = some s.trim) := by
  have hsf : safeNormalizeFilters input today =
      { agentId := normAgentId input.agentId, «from» := today, «to» := today,
        currency := normCurrency input.currency } := by
    simp [safeNormalizeFilters, h]
  refine ⟨hsf, ?_, ?_, ?_, ?_, ?_, ?_⟩
  · intro hcn; rw [hsf]; simp [normCurrency, DEFAULT_CURRENCY, hcn]
  · intro s hcs hse; rw [hsf]; simp [normCurrency, DEFAULT_CURRENCY, hcs, hse]
  · intro s hcs hse; rw [hsf]; simp [normCurrency, hcs, hse]
  · intro han; rw [hsf]; simp [normAgentId, han]
  · intro s has hse; rw [hsf]; simp [normAgentId, has, hse]
  · intro s has hse; rw [hsf]; simp [normAgentId, has, hse]

/-- C9 witness: the fallback on the reversed-range input. -/
theorem safeNormalizeFilters_fallback_witness :
    safeNormalizeFilters badRangeInput 0 =
      { agentId := none, «from» := 0, «to» := 0, currency := "USD" } :=
  (safeNormalizeFilters_fallback badRangeInput 0 "INVALID_DATE_RANGE" (by rfl)).1

/-- C5 counterexample: the configured stub backend called with EUR filters
fails with NOT_IMPLEMENTED, not with UNSUPPORTED_CURRENCY, because the stub
never inspects the currency; the claim that every backend, stub included,
fails with UnsupportedCurrency is therefore false at this input. -/
theorem stub_eur_counterexample :
    manufactGetExpenses true eurFilters = Except.error "NOT_IMPLEMENTED" ∧
    manufactGetExpenses true eurFilters ≠ Except.error "UNSUPPORTED_CURRENCY" := by
  refine ⟨rfl, ?_⟩
  intro h
  exact absurd (Except.error.inj h) (by decide)

/-- C5 amended: every operation of the mock and relational backends rejects
a non-USD currency with UNSUPPORTED_CURRENCY, while the stub backend fails
with PROVIDER_NOT_CONFIGURED when unconfigured and NOT_IMPLEMENTED when
configured, regardless of the currency. -/
theorem non_usd_rejected (f : LedgerFilters) (inp : TrackExpenseInput)
    (st : MockState) (db : PuzzleDb) (now : Int) (cfg : Bool)
    (hf : f.currency ≠ "USD") (hi : inp.currency ≠ "USD") :
    (mockGetExpenses f st).1 = Except.error "UNSUPPORTED_CURRENCY" ∧
    (mockGetBalance now f st).1 = Except.error "UNSUPPORTED_CURRENCY" ∧
    (mockTrackExpense inp st).1 = Except.error "UNSUPPORTED_CURRENCY" ∧
    puzzleGetExpenses f db = Except.error "UNSUPPORTED_CURRENCY" ∧
    puzzleGetBalance now f db = Except.error "UNSUPPORTED_CURRENCY" ∧
    (puzzleTrackExpense inp db).1 = Except.error "UNSUPPORTED_CURRENCY" ∧
    manufactGetExpenses cfg f =
      Except.error (if cfg then "NOT_IMPLEMENTED" else "PROVIDER_NOT_CONFIGURED") ∧
    manufactGetBalance cfg f =
      Except.error (if cfg then "NOT_IMPLEMENTED" else "PROVIDER_NOT_CONFIGURED") := by
  refine ⟨?_, ?_, ?_, ?_, ?_, ?_, ?_, ?_⟩
  · simp [mockGetExpenses, hf]
  · simp [mockGetBalance, hf]
  · simp [mockTrackExpense, hi]
  · simp [puzzleGetExpenses, hf]
  · simp [puzzleGetBalance, hf]
  · simp [puzzleTrackExpense, hi]
  · cases cfg <;> simp [manufactGetExpenses]
  · cases cfg <;> simp [manufactGetBalance]

/-- C5 witness: the amended behaviour at EUR inputs against the sample
store, database and the configured stub. -/
theorem non_usd_rejected_witness :
    (mockGetExpenses eurFilters SEED_MOCK_EXPENSES).1
      = Except.error "UNSUPPORTED_CURRENCY" ∧
    (mockGetBalance 0 eurFilters SEED_MOCK_EXPENSES).1
      = Except.error "UNSUPPORTED_CURRENCY" ∧
    (mockTrackExpense eurTrackInput SEED_MOCK_EXPENSES).1
      = Except.error "UNSUPPORTED_CURRENCY" ∧
    puzzleGetExpenses eurFilters sampleDb = Except.error "UNSUPPORTED_CURRENCY" ∧
    puzzleGetBalance 0 eurFilters sampleDb = Except.error "UNSUPPORTED_CURRENCY" ∧
    (puzzleTrackExpense eurTrackInput sampleDb).1
      = Except.error "UNSUPPORTED_CURRENCY" ∧
    manufactGetExpenses true eurFilters =
      Except.error (if true then "NOT_IMPLEMENTED" else "PROVIDER_NOT_CONFIGURED") ∧
    manufactGetBalance true eurFilters =
      Except.error (if true then "NOT_IMPLEMENTED" else "PROVIDER_NOT_CONFIGURED") :=
  non_usd_rejected eurFilters eurTrackInput SEED_MOCK_EXPENSES sampleDb 0 true
    (by decide) (by decide)

/-- C6 counterexample: the relational trackExpense called with an otherwise
valid USD input whose amountMinor is -5 does not fail with INVALID_AMOUNT
(it has no amount validation; the database positivity constraint rejects the
insert and the error surfaces as PROVIDER_UNAVAILABLE), so the claim that
every backend fails with InvalidAmount on a non-positive amount is false at
this input. -/
theorem puzzle_negative_amount_counterexample :
    (puzzleTrackExpense negAmountInput sampleDb).1
      = Except.error "PROVIDER_UNAVAILABLE" ∧
    (puzzleTrackExpense negAmountInput sampleDb).1
      ≠ Except.error "INVALID_AMOUNT" := by
  refine ⟨by rfl, ?_⟩
  intro h
  rw [show (puzzleTrackExpense negAmountInput sampleDb).1
      = Except.error "PROVIDER_UNAVAILABLE" from rfl] at h
  exact absurd (Except.error.inj h) (by decide)

/-- C6 amended: a record-expense input with non-positive amountMinor and USD
currency fails with INVALID_AMOUNT on the mock backend whenever the agent is
in the roster, leaving the store unchanged; on the relational backend, with
a parseable occurredAt, it is rejected by the database amount-positivity
constraint surfacing as PROVIDER_UNAVAILABLE, and no expense row is
persisted there either (only the agent upsert may have taken effect). -/
theorem nonpositive_amount_rejected (inp : TrackExpenseInput) (st : MockState)
    (db : PuzzleDb) (agent : String × String) (t : Int)
    (hamt : inp.amountMinor ≤ 0) (hcur : inp.currency = "USD")
    (hag : findAgent inp.agentId = some agent) (ht : inp.occurredAt = some t) :
    mockTrackExpense inp st = (Except.error "INVALID_AMOUNT", st) ∧
    (puzzleTrackExpense inp db).1 = Except.error "PROVIDER_UNAVAILABLE" ∧
    (puzzleTrackExpense inp db).2.expenses = db.expenses := by
  refine ⟨?_, ?_⟩
  · rw [mockTrackExpense, hag]
    simp [hcur, hamt]
  · rw [puzzleTrackExpense, ht]
    simp only [hcur]
    by_cases hany : db.agents.any (fun a => a.id == inp.agentId) = true
    · have hfind : (db.agents.find? (fun a => a.id == inp.agentId)).isSome := by
        rw [List.find?_isSome]
        rcases List.any_eq_true.mp hany with ⟨a, ha, hpa⟩
        exact ⟨a, ha, hpa⟩
      rcases Option.isSome_iff_exists.mp hfind with ⟨a, hfa⟩
      simp [hany, hfa, hamt]
    · have hnone : db.agents.find? (fun a => a.id == inp.agentId) = none := by
        rw [List.find?_eq_none]
        intro x hx
        exact fun hpx => hany (List.any_eq_true.mpr ⟨x, hx, hpx⟩)
      have hfind : ((db.agents ++
          [({ id := inp.agentId, name := inp.agentId, startingMinor := 0,
              currency := "USD" } : AgentRow)]).find?
            (fun a => a.id == inp.agentId))
          = some { id := inp.agentId, name := inp.agentId, startingMinor := 0,
                   currency := "USD" } := by
        rw [List.find?_append, hnone]
        simp [List.find?]
      simp [hany, hfind, hamt]

/-- C6 witness: the amended behaviour at the concrete negative-amount input
against the empty mock store and the sample database. -/
theorem nonpositive_amount_rejected_witness :
    mockTrackExpense negAmountInput [] = (Except.error "INVALID_AMOUNT", []) ∧
    (puzzleTrackExpense negAmountInput sampleDb).1
      = Except.error "PROVIDER_UNAVAILABLE" ∧
    (puzzleTrackExpense negAmountInput sampleDb).2.expenses
      = sampleDb.expenses :=
  nonpositive_amount_rejected negAmountInput [] sampleDb ("agent-atlas", "Atlas") 0
    (by decide) rfl (by decide) rfl

/-- C8 counterexample: toInt applied to the numeric value NaN returns NaN
unchanged (Math.trunc has no finiteness guard), so the claim that any
non-finite value maps to zero, and that the coercion always returns an
integer, is false at this input. -/
theorem toInt_nan_counterexample :
    toInt (JsValue.num JsNum.nan) = JsNum.nan ∧
    toInt (JsValue.num JsNum.nan) ≠ JsNum.finite 0 := by
  exact ⟨rfl, by decide⟩

/-- C8 amended: toInt returns an integer for every input except a non-finite
number: a finite numeric value is truncated toward zero, a string is parsed
base-10 with an unparseable string mapping to zero, and null or undefined
map to zero; but the non-finite numeric inputs NaN, Infinity and -Infinity
are propagated unchanged rather than coerced to zero. -/
theorem toInt_integer_coercion (v : JsValue) (q : ℚ) (s : String)
    (hnan : v ≠ JsValue.num JsNum.nan) (hpos : v ≠ JsValue.num JsNum.posInf)
    (hneg : v ≠ JsValue.num JsNum.negInf) :
    (∃ i : Int, toInt v = JsNum.finite (i : ℚ)) ∧
    toInt (JsValue.num (JsNum.finite q)) = JsNum.finite ((jsTruncQ q : Int) : ℚ) ∧
    toInt (JsValue.str s) = JsNum.finite (((parseIntJs s).getD 0 : Int) : ℚ) ∧
    toInt JsValue.nullV = JsNum.finite ((0 : Int) : ℚ) ∧
    toInt JsValue.undef = JsNum.finite ((0 : Int) : ℚ) ∧
    toInt (JsValue.num JsNum.nan) = JsNum.nan ∧
    toInt (JsValue.num JsNum.posInf) = JsNum.posInf ∧
    toInt (JsValue.num JsNum.negInf) = JsNum.negInf := by
  refine ⟨?_, rfl, ?_, by decide, by decide, rfl, rfl, rfl⟩
  · cases v with
    | num n =>
      cases n with
      | finite q' => exact ⟨jsTruncQ q', rfl⟩
      | nan => exact absurd rfl hnan
      | posInf => exact absurd rfl hpos
      | negInf => exact absurd rfl hneg
    | str s' =>
      cases hp : parseIntJs s' with
      | some parsed => exact ⟨parsed, by simp [toInt, hp]⟩
      | none => exact ⟨0, by simp [toInt, hp]⟩
    | nullV => exact ⟨0, by norm_num [toInt]⟩
    | undef => exact ⟨0, by norm_num [toInt]⟩
  · cases hp : parseIntJs s with
    | some parsed => simp [toInt, hp]
    | none => simp [toInt, hp]

/-- C8 witness: the amended coercion behaviour at the concrete string input
"42" and at null. -/
theorem toInt_integer_coercion_witness :
    toInt (JsValue.str "42")
      = JsNum.finite (((parseIntJs "42").getD 0 : Int) : ℚ) ∧
    toInt JsValue.nullV = JsNum.finite ((0 : Int) : ℚ) :=
  ⟨(toInt_integer_coercion (JsValue.str "42") 0 "42"
      (by decide) (by decide) (by decide)).2.2.1,
   (toInt_integer_coercion (JsValue.str "42") 0 "42"
      (by decide) (by decide) (by decide)).2.2.2.1⟩

/-- C10: the mock read operations return the store unchanged (they filter
and sort fresh copies), and a successful trackExpense leaves the new store
equal to the old store with exactly the one new expense appended, so every
prior entry is preserved and the length grows by one. -/
theorem mock_reads_pure_track_appends (f : LedgerFilters)
    (inp : TrackExpenseInput) (st : MockState) (now : Int) :
    (mockGetExpenses f st).2 = st ∧
    (mockGetBalance now f st).2 = st ∧
    (∀ r st2, mockTrackExpense inp st = (Except.ok r, st2) →
      st2 = st ++ [r.expense] ∧ st2.length = st.length + 1 ∧
      ∀ e ∈ st, e ∈ st2) := by
  refine ⟨?_, ?_, ?_⟩
  · by_cases h : f.currency = "USD" <;> simp [mockGetExpenses, h]
  · by_cases h : f.currency = "USD" <;> simp [mockGetBalance, h]
  · intro r st2 h
    rw [mockTrackExpense] at h
    split at h
    · simp at h
    · split at h
      · simp at h
      · split at h
        · simp at h
        · split at h
          · simp at h
          · rw [Prod.mk.injEq] at h
            obtain ⟨h1, h2⟩ := h
            have hr := Except.ok.inj h1
            subst hr
            subst h2
            refine ⟨rfl, by simp, ?_⟩
            intro e he
            exact List.mem_append_left _ he

/-- C10 witness: reads on the empty store return it unchanged, and the
successful track of a 5-cent expense on the empty store appends exactly that
expense. -/
theorem mock_reads_pure_track_appends_witness :
    (mockGetExpenses sampleFilters []).2 = ([] : MockState) ∧
    ([trackedExpense] : MockState) = [] ++ [trackedExpense] ∧
    ([trackedExpense] : MockState).length = ([] : MockState).length + 1 :=
  have h := mock_reads_pure_track_appends sampleFilters okTrackInput [] 0
  have h3 := h.2.2 { currency := "USD", expense := trackedExpense }
    [trackedExpense] (by rfl)
  ⟨h.1, h3.1, h3.2.1⟩

end AgentLedger
